import Mathlib

/-!
Verification development for `wm_auto.py`, a single-file trading signal
pipeline.  Prices are modelled as rationals.  Each Python detector is
translated to a Lean function over `List Bar`; pandas positional slicing
(`iloc[a:b]`, `tail(k)`) is modelled by `pyslice` / `pytail` with the same
clamping semantics as Python slices.  A pandas `max()`/`min()` over an empty
selection yields NaN, and every comparison against NaN is `False`; this is
modelled by `Option ℚ` extremes together with `qgt`/`qlt`, which are `false`
whenever either side is absent.  A Python `IndexError` (raw positional access
out of range) is modelled by an outer `Option` layer returning `none`.
-/

/-- One OHLC bar (`open`, `high`, `low`, `close`); `op` stands for the
Python column `open`, which is a reserved word in Lean. -/
structure Bar where
  op : ℚ
  high : ℚ
  low : ℚ
  close : ℚ
deriving DecidableEq, Repr

/-- Trend label returned by `calc_trend`. -/
inductive Trend where
  | bull
  | bear
  | sideways
deriving DecidableEq, Repr

/-- Structure-break label returned by `detect_bos` (`'bull_bos'` / `'bear_bos'`). -/
inductive StructureEvent where
  | bull_bos
  | bear_bos
deriving DecidableEq, Repr

/-- Reversal-pattern label returned by `detect_wm` (`'W'` / `'M'`). -/
inductive Pattern where
  | W
  | M
deriving DecidableEq, Repr

/-- Sweep label returned by `detect_liquidity_sweep`. -/
inductive Sweep where
  | buy_sweep
  | sell_sweep
deriving DecidableEq, Repr

/-- Order direction. -/
inductive Direction where
  | buy
  | sell
deriving DecidableEq, Repr

/-- Python slice `l[a:b]` with possibly negative bounds: a negative index
counts from the end, and the resolved bounds are clamped into `[0, n]`. -/
def pyslice (l : List ℚ) (a b : Int) : List ℚ :=
  let n : Int := l.length
  let a2 : Nat := (if a < 0 then max 0 (n + a) else min a n).toNat
  let b2 : Nat := (if b < 0 then max 0 (n + b) else min b n).toNat
  (l.drop a2).take (b2 - a2)

/-- pandas `df.tail(k)`: the last `min(k, n)` elements. -/
def pytail (l : List Bar) (k : Nat) : List Bar :=
  l.drop (l.length - k)

/-- `iloc[-k:]` on a column: the last `min(k, n)` values. -/
def pytailQ (l : List ℚ) (k : Nat) : List ℚ :=
  l.drop (l.length - k)

/-- Python negative indexing `l[-k]` for `k ≥ 1`; `none` models `IndexError`. -/
def idxNeg (l : List ℚ) (k : Nat) : Option ℚ :=
  if k ≤ l.length then l.get? (l.length - k) else none

/-- `max()` of a pandas selection: `none` models the NaN produced on empty input. -/
def qmax? (l : List ℚ) : Option ℚ :=
  l.foldr (fun x acc => match acc with
    | none => some x
    | some y => some (max x y)) none

/-- `min()` of a pandas selection: `none` models the NaN produced on empty input. -/
def qmin? (l : List ℚ) : Option ℚ :=
  l.foldr (fun x acc => match acc with
    | none => some x
    | some y => some (min x y)) none

/-- `a > b` under NaN semantics: comparison with an absent value is `false`. -/
def qgt : Option ℚ → Option ℚ → Bool
  | some a, some b => a > b
  | _, _ => false

/-- `a < b` under NaN semantics: comparison with an absent value is `false`. -/
def qlt : Option ℚ → Option ℚ → Bool
  | some a, some b => a < b
  | _, _ => false

/-- `calc_trend(df_h4)`: compares the last two highs and lows of the last 5
bars; bull on higher high and higher low, bear on lower low and lower high,
else sideways.  `none` models the `IndexError` raised when fewer than 2 bars
exist (the function has no explicit length guard). -/
def calc_trend (df_h4 : List Bar) : Option Trend :=
  let highs := pytailQ (df_h4.map Bar.high) 5
  let lows := pytailQ (df_h4.map Bar.low) 5
  match idxNeg highs 1, idxNeg highs 2, idxNeg lows 1, idxNeg lows 2 with
  | some h1, some h2, some l1, some l2 =>
    let hh := h1 > h2
    let hl := l1 > l2
    let ll := l1 < l2
    let lh := h1 < h2
    if hh ∧ hl then some Trend.bull
    else if ll ∧ lh then some Trend.bear
    else some Trend.sideways
  | _, _, _, _ => none

/-- `detect_bos(df_1h)`: recent swing extremes over positions `[-3,-1)`
against prior extremes over `[-6,-4)`; bull break checked first.  Empty
windows give NaN extremes, so both comparisons are `false` and the result is
`none` (the Python code never raises here). -/
def detect_bos (df_1h : List Bar) : Option StructureEvent :=
  let highs := df_1h.map Bar.high
  let lows := df_1h.map Bar.low
  let recent_high := qmax? (pyslice highs (-3) (-1))
  let prev_high := qmax? (pyslice highs (-6) (-4))
  let recent_low := qmin? (pyslice lows (-3) (-1))
  let prev_low := qmin? (pyslice lows (-6) (-4))
  if qgt recent_high prev_high then some StructureEvent.bull_bos
  else if qlt recent_low prev_low then some StructureEvent.bear_bos
  else none

/-- `detect_wm(df_1h)`: guard `len(closes) < 10 → None`, then the W/M shape
test on 4 positional lows/highs of the last 12 bars (W tested first). -/
def detect_wm (df_1h : List Bar) : Option Pattern :=
  if df_1h.length < 10 then none
  else
    let last := pytail df_1h 12
    let lows := last.map Bar.low
    let highs := last.map Bar.high
    match idxNeg lows 3, idxNeg lows 4, idxNeg lows 2, idxNeg lows 1,
        idxNeg highs 3, idxNeg highs 4, idxNeg highs 2, idxNeg highs 1 with
    | some l3, some l4, some l2, some l1, some h3, some h4, some h2, some h1 =>
      if l3 < l4 ∧ l3 < l2 ∧ l2 > l1 then some Pattern.W
      else if h3 > h4 ∧ h3 > h2 ∧ h2 < h1 then some Pattern.M
      else none
    | _, _, _, _, _, _, _, _ => none

/-- `detect_liquidity_sweep(df_m15)`: wick extremes of the last 6 bars
against the `[-20,-5)` lookback range, with a rejection close on the last
bar.  Outer `none` models the `IndexError` on an empty series (the code reads
`last3['close'].iloc[-1]`); the inner value is the Python return, where
`Option.none` is the `(None, None)` no-sweep result. -/
def detect_liquidity_sweep (df_m15 : List Bar) : Option (Option (Sweep × ℚ)) :=
  match df_m15.getLast? with
  | none => none
  | some lastBar =>
    let last3 := pytail df_m15 6
    let high_wick := qmax? (last3.map Bar.high)
    let low_wick := qmin? (last3.map Bar.low)
    let recent_high := qmax? (pyslice (df_m15.map Bar.high) (-20) (-5))
    let recent_low := qmin? (pyslice (df_m15.map Bar.low) (-20) (-5))
    let sweep_buy := qlt low_wick recent_low && decide (lastBar.close > lastBar.op)
    let sweep_sell := qgt high_wick recent_high && decide (lastBar.close < lastBar.op)
    if sweep_buy then some (some (Sweep.buy_sweep, low_wick.getD 0))
    else if sweep_sell then some (some (Sweep.sell_sweep, high_wick.getD 0))
    else some none

/-- `detect_order_block(df_1h)`: reads the second-to-last bar (`iloc[-2]`,
hence an `IndexError`, outer `none`, with fewer than 2 bars) and returns a
buy zone for a bearish candle, a sell zone for a bullish one, and the
`(None, None)` no-zone result (inner `none`) on a doji. -/
def detect_order_block (df_1h : List Bar) : Option (Option (Direction × ℚ × ℚ)) :=
  if df_1h.length < 2 then none
  else
    match df_1h.get? (df_1h.length - 2) with
    | none => none
    | some last =>
      if last.close < last.op then some (some (Direction.buy, last.low, last.high))
      else if last.close > last.op then some (some (Direction.sell, last.low, last.high))
      else some none

/-- `ALLOWED_SESSION_HOURS`: half-open UTC hour windows. -/
def ALLOWED_SESSION_HOURS : List (Nat × Nat) := [(7, 16), (12, 21)]

/-- `in_allowed_session(now)`: true iff the hour lies in some configured
half-open window. -/
def in_allowed_session (hour : Nat) : Bool :=
  ALLOWED_SESSION_HOURS.any (fun se => decide (se.1 ≤ hour) && decide (hour < se.2))

/-- Python `round(x, 2)` on an exact value: round half to even at the second
decimal place. -/
def round2 (x : ℚ) : ℚ :=
  let y := x * 100
  let f := ⌊y⌋
  let r := y - f
  let n := if r < 1/2 then f else if 1/2 < r then f + 1 else if f % 2 = 0 then f else f + 1
  (n : ℚ) / 100

/-- `lot_size_from_risk(balance, risk_pct, sl_pips)`.  The Python result
depends on the environment: without the MetaTrader5 module it returns the
0.01 sandbox default, with the module but no symbol info it returns 0.01, and
otherwise it clamps `risk_dollars / (sl_pips * 10.0)` to a 0.01 floor and
rounds to two decimals.  The two environment flags are explicit parameters;
the `tick_value` and `point` locals of the source are dead code and carry no
effect on the result. -/
def lot_size_from_risk (mt5Available infoAvailable : Bool) (balance risk_pct sl_pips : ℚ) : ℚ :=
  if mt5Available then
    if infoAvailable then
      let risk_dollars := balance * risk_pct
      let pip_value_1lot : ℚ := 10
      let lot := max (1/100) (risk_dollars / (sl_pips * pip_value_1lot))
      round2 lot
    else 1/100
  else 1/100

/-- The decision emitted by one `run_once` cycle: direction, stop, target,
and whether `place_market_order` was invoked. -/
structure Decision where
  direction : Option Direction
  sl_price : Option ℚ
  tp_price : Option ℚ
  orderSubmitted : Bool
deriving DecidableEq, Repr

/-- The decision logic of `run_once` after the data-fetch and detector steps
(source lines 222–250): the session gate, then the long rule, then the short
rule, else no signal.  Detector outputs are parameters, exactly the local
variables `sweep_type`, `ob_type`/`ob_zone`, `bos`, `wm`, `trend` of the
source, plus the last M15 close used for the target.  `ob_zone.getD`
defaults are unreachable in the signal branches because the guards pin
`ob_type`, which in the source is `None` exactly when `ob_zone` is. -/
def run_once (hour : Nat) (sweep_type : Option Sweep) (ob_type : Option Direction)
    (ob_zone : Option (ℚ × ℚ)) (bos : Option StructureEvent) (wm : Option Pattern)
    (trend : Trend) (lastClose : ℚ) : Decision :=
  if ¬ (in_allowed_session hour = true) then ⟨none, none, none, false⟩
  else if sweep_type = some Sweep.buy_sweep ∧ ob_type = some Direction.buy ∧
      (bos = some StructureEvent.bull_bos ∨ wm = some Pattern.W) ∧ trend = Trend.bull then
    let sl_price := (ob_zone.getD (0, 0)).1 - 1/2
    let tp_price := lastClose + (lastClose - sl_price) * (5/2)
    ⟨some Direction.buy, some sl_price, some tp_price, true⟩
  else if sweep_type = some Sweep.sell_sweep ∧ ob_type = some Direction.sell ∧
      (bos = some StructureEvent.bear_bos ∨ wm = some Pattern.M) ∧ trend = Trend.bear then
    let sl_price := (ob_zone.getD (0, 0)).2 + 1/2
    let tp_price := lastClose - (sl_price - lastClose) * (5/2)
    ⟨some Direction.sell, some sl_price, some tp_price, true⟩
  else ⟨none, none, none, false⟩

/-! ### Concrete series used in counterexamples and witnesses -/

/-- A 10-bar series whose last four lows form the W shape (5, 1, 4, 2). -/
def wmList : List Bar :=
  [⟨1, 10, 5, 1⟩, ⟨1, 10, 5, 1⟩, ⟨1, 10, 5, 1⟩, ⟨1, 10, 5, 1⟩, ⟨1, 10, 5, 1⟩,
   ⟨1, 10, 5, 1⟩, ⟨1, 10, 5, 1⟩, ⟨1, 10, 1, 1⟩, ⟨1, 10, 4, 1⟩, ⟨1, 10, 2, 1⟩]

/-- A 2-bar series with flat highs and lows. -/
def trendTwoBars : List Bar := [⟨1, 2, 1, 1⟩, ⟨1, 2, 1, 1⟩]

/-- A 5-bar series whose truncated recent-high window exceeds the truncated
prior-high window. -/
def bosList : List Bar :=
  [⟨1, 1, 0, 1⟩, ⟨1, 1, 0, 1⟩, ⟨1, 1, 0, 1⟩, ⟨1, 5, 0, 1⟩, ⟨1, 5, 0, 1⟩]

/-- A 4-bar series (prior-swing windows empty). -/
def bosShortList : List Bar :=
  [⟨1, 1, 0, 1⟩, ⟨1, 1, 0, 1⟩, ⟨1, 1, 0, 1⟩, ⟨1, 1, 0, 1⟩]

/-- An 8-bar series in which the recent high exceeds the prior high and the
recent low undercuts the prior low simultaneously. -/
def bosBothList : List Bar :=
  [⟨1, 5, 3, 1⟩, ⟨1, 5, 3, 1⟩, ⟨1, 5, 3, 1⟩, ⟨1, 5, 3, 1⟩,
   ⟨1, 5, 3, 1⟩, ⟨1, 10, 1, 1⟩, ⟨1, 10, 1, 1⟩, ⟨1, 5, 3, 1⟩]

/-- The first bar of `obList`: a bearish candle (close 9 < open 10). -/
def obBar0 : Bar := ⟨10, 11, 8, 9⟩

/-- A 2-bar series whose second-to-last bar is `obBar0`. -/
def obList : List Bar := [obBar0, ⟨1, 2, 1, 1⟩]

/-- A 1-bar series whose single (last) bar is a doji (close = open). -/
def dojiList : List Bar := [⟨1, 100, 0, 1⟩]

/-! ### Helper lemmas -/

lemma qgt_none_right (x : Option ℚ) : qgt x none = false := by
  cases x <;> rfl

lemma qlt_none_right (x : Option ℚ) : qlt x none = false := by
  cases x <;> rfl

lemma idxNeg_isSome (l : List ℚ) (k : Nat) (h1 : 1 ≤ k) (h2 : k ≤ l.length) :
    ∃ x, idxNeg l k = some x := by
  have hlt : l.length - k < l.length := by omega
  refine ⟨l.get ⟨l.length - k, hlt⟩, ?_⟩
  rw [idxNeg, if_pos h2]
  exact List.get?_eq_get hlt

lemma pyslice_m6_m4_empty (l : List ℚ) (h : l.length ≤ 4) : pyslice l (-6) (-4) = [] := by
  have h4 : (l.length : Int) + (-4) ≤ 0 := by
    have : (l.length : Int) ≤ 4 := by exact_mod_cast h
    omega
  simp only [pyslice]
  norm_num
  have hb : (max 0 ((l.length : Int) + (-4))).toNat = 0 := by
    rw [max_eq_left h4]
    rfl
  rw [hb]
  simp

lemma round2_ge_min (x : ℚ) (h : 1/100 ≤ x) : 1/100 ≤ round2 x := by
  simp only [round2]
  have hy : (1 : ℚ) ≤ x * 100 := by linarith
  have hf : (1 : ℤ) ≤ ⌊x * 100⌋ := Int.le_floor.mpr (by exact_mod_cast hy)
  have hn : (1 : ℤ) ≤
      (if x * 100 - ⌊x * 100⌋ < 1/2 then ⌊x * 100⌋
       else if 1/2 < x * 100 - ⌊x * 100⌋ then ⌊x * 100⌋ + 1
       else if ⌊x * 100⌋ % 2 = 0 then ⌊x * 100⌋ else ⌊x * 100⌋ + 1) := by
    split
    · exact hf
    · split
      · omega
      · split
        · exact hf
        · omega
  have hcast : (1 : ℚ) ≤
      ((if x * 100 - ⌊x * 100⌋ < 1/2 then ⌊x * 100⌋
        else if 1/2 < x * 100 - ⌊x * 100⌋ then ⌊x * 100⌋ + 1
        else if ⌊x * 100⌋ % 2 = 0 then ⌊x * 100⌋ else ⌊x * 100⌋ + 1 : ℤ) : ℚ) := by
    exact_mod_cast hn
  exact (div_le_div_iff_of_pos_right (by norm_num : (0:ℚ) < 100)).mpr hcast

/-! ### Claim theorems -/

/-- C1: whenever the session gate passes and the detectors yield a buy sweep,
a buy zone `(zlo, zhi)`, a bull trend, and a bull structure break or a W
(double-bottom) pattern, `run_once` decides buy with stop `zlo - 0.5` and
target `lastClose + (lastClose - stop) * 2.5`. -/
theorem run_once_long_rule (hour : Nat) (zlo zhi : ℚ) (bos : Option StructureEvent)
    (wm : Option Pattern) (lastClose : ℚ)
    (hs : in_allowed_session hour = true)
    (hbw : bos = some StructureEvent.bull_bos ∨ wm = some Pattern.W) :
    run_once hour (some Sweep.buy_sweep) (some Direction.buy) (some (zlo, zhi)) bos wm
      Trend.bull lastClose
      = ⟨some Direction.buy, some (zlo - 1/2),
         some (lastClose + (lastClose - (zlo - 1/2)) * (5/2)), true⟩ := by
  rcases hbw with h | h <;> simp [run_once, hs, h]

/-- Witness for C1 at hour 8, zone (5, 7), bull structure break, last close 10. -/
theorem run_once_long_rule_w :
    run_once 8 (some Sweep.buy_sweep) (some Direction.buy) (some (5, 7))
      (some StructureEvent.bull_bos) none Trend.bull 10
      = ⟨some Direction.buy, some (5 - 1/2), some (10 + (10 - (5 - 1/2)) * (5/2)), true⟩ :=
  run_once_long_rule 8 5 7 (some StructureEvent.bull_bos) none 10 rfl (Or.inl rfl)

/-- C2: when the hour lies outside every configured session window,
`run_once` returns the none decision and submits no order, whatever the
detector outputs are. -/
theorem run_once_session_gate (hour : Nat) (st : Option Sweep) (obt : Option Direction)
    (obz : Option (ℚ × ℚ)) (bos : Option StructureEvent) (wm : Option Pattern)
    (trend : Trend) (lastClose : ℚ)
    (h : ∀ se ∈ ALLOWED_SESSION_HOURS, ¬ (se.1 ≤ hour ∧ hour < se.2)) :
    run_once hour st obt obz bos wm trend lastClose = ⟨none, none, none, false⟩ := by
  have h1 := h (7, 16) (by simp [ALLOWED_SESSION_HOURS])
  have h2 := h (12, 21) (by simp [ALLOWED_SESSION_HOURS])
  have hs : in_allowed_session hour = false := by
    simp only [in_allowed_session, ALLOWED_SESSION_HOURS, List.any_cons, List.any_nil,
      Bool.or_false, Bool.or_eq_false_iff, Bool.and_eq_false_iff]
    constructor
    · by_cases hc : 7 ≤ hour
      · right
        simp only [decide_eq_false_iff_not, not_lt]
        omega
      · left
        simp only [decide_eq_false_iff_not]
        omega
    · by_cases hc : 12 ≤ hour
      · right
        simp only [decide_eq_false_iff_not, not_lt]
        omega
      · left
        simp only [decide_eq_false_iff_not]
        omega
  simp [run_once, hs]

/-- Witness for C2 at hour 3 with arbitrary detector outputs. -/
theorem run_once_session_gate_w :
    run_once 3 (some Sweep.buy_sweep) (some Direction.buy) (some (5, 7))
      (some StructureEvent.bull_bos) (some Pattern.W) Trend.bull 10
      = ⟨none, none, none, false⟩ :=
  run_once_session_gate 3 (some Sweep.buy_sweep) (some Direction.buy) (some (5, 7))
    (some StructureEvent.bull_bos) (some Pattern.W) Trend.bull 10 (by decide)

/-- C3 counterexample: `wmList` has 10 bars (< 12), yet the pattern matcher
returns the double-bottom label W, not none. -/
theorem detect_wm_ten_bar_example :
    wmList.length < 12 ∧ detect_wm wmList = some Pattern.W := by decide

/-- C3 (amended): the guard in the source is 10 bars, not 12 — for every
Series with fewer than 10 bars the pattern matcher returns none. -/
theorem detect_wm_short_input (df : List Bar) (h : df.length < 10) :
    detect_wm df = none := by
  simp [detect_wm, h]

/-- Witness for the amended C3 on the empty series. -/
theorem detect_wm_short_input_w : detect_wm [] = none :=
  detect_wm_short_input [] (by decide)

/-- C4 counterexample: a 2-bar series (< 5 bars) does not raise — the trend
classifier returns the label sideways. -/
theorem calc_trend_two_bar_example :
    trendTwoBars.length < 5 ∧ calc_trend trendTwoBars = some Trend.sideways := by decide

/-- C4 (amended): the classifier has no 5-bar precondition check and no
InsufficientDataError; it fails (bare index error) only below 2 bars, and for
every Series with at least 2 bars — including lengths 2–4 — it returns a
trend label. -/
theorem calc_trend_short_input (df : List Bar) :
    (df.length < 2 → calc_trend df = none) ∧
    (2 ≤ df.length → ∃ t, calc_trend df = some t) := by
  constructor
  · intro h
    match df, h with
    | [], _ => rfl
    | [a], _ => rfl
  · intro h
    have hlen : (pytailQ (df.map Bar.high) 5).length = df.length - (df.length - 5) := by
      simp [pytailQ]
    have hlen2 : (pytailQ (df.map Bar.low) 5).length = df.length - (df.length - 5) := by
      simp [pytailQ]
    obtain ⟨h1, e1⟩ := idxNeg_isSome (pytailQ (df.map Bar.high) 5) 1 (by omega) (by omega)
    obtain ⟨h2, e2⟩ := idxNeg_isSome (pytailQ (df.map Bar.high) 5) 2 (by omega) (by omega)
    obtain ⟨l1, e3⟩ := idxNeg_isSome (pytailQ (df.map Bar.low) 5) 1 (by omega) (by omega)
    obtain ⟨l2, e4⟩ := idxNeg_isSome (pytailQ (df.map Bar.low) 5) 2 (by omega) (by omega)
    simp only [calc_trend, e1, e2, e3, e4]
    split
    · exact ⟨_, rfl⟩
    · split
      · exact ⟨_, rfl⟩
      · exact ⟨_, rfl⟩

/-- Witness for the amended C4: the empty series fails, while the 2-bar
series gets a label. -/
theorem calc_trend_short_input_w :
    calc_trend [] = none ∧ ∃ t, calc_trend trendTwoBars = some t :=
  ⟨(calc_trend_short_input []).1 (by decide),
   (calc_trend_short_input trendTwoBars).2 (by decide)⟩

/-- C5 counterexample: `bosList` has 5 bars (< 8), yet the structure-break
detector returns bull-break, not none. -/
theorem detect_bos_five_bar_example :
    bosList.length < 8 ∧ detect_bos bosList = some StructureEvent.bull_bos := by decide

/-- C5 (amended): the source has no 8-bar floor; the detector returns none
for every Series with fewer than 5 bars (the prior-swing windows are then
empty, so both NaN comparisons are false), while 5–7 bar input can already
produce a break label. -/
theorem detect_bos_short_input (df : List Bar) (h : df.length < 5) :
    detect_bos df = none := by
  have hm : (df.map Bar.high).length ≤ 4 := by simp; omega
  have hm2 : (df.map Bar.low).length ≤ 4 := by simp; omega
  have e1 : pyslice (df.map Bar.high) (-6) (-4) = [] := pyslice_m6_m4_empty _ hm
  have e2 : pyslice (df.map Bar.low) (-6) (-4) = [] := pyslice_m6_m4_empty _ hm2
  simp only [detect_bos, e1, e2]
  rw [show qmax? [] = none from rfl, show qmin? [] = none from rfl,
    qgt_none_right, qlt_none_right]
  simp

/-- Witness for the amended C5 on a 4-bar series. -/
theorem detect_bos_short_input_w : detect_bos bosShortList = none :=
  detect_bos_short_input bosShortList (by decide)

/-- C6 counterexample: `obList` has only 2 bars (< 3), yet the zone extractor
returns a buy zone taken from the second-to-last bar. -/
theorem detect_order_block_two_bar_example :
    obList.length < 3 ∧ detect_order_block obList = some (some (Direction.buy, 8, 11)) := by
  decide

/-- C6 (amended): the extractor needs only 2 bars, not 3; below 2 bars it
fails with an index error rather than returning none, and from 2 bars on it
examines the second-to-last bar and maps a bearish candle to a buy zone, a
bullish candle to a sell zone, and a doji to none. -/
theorem detect_order_block_second_last (df : List Bar) :
    (df.length < 2 → detect_order_block df = none) ∧
    (∀ b, 2 ≤ df.length → df.get? (df.length - 2) = some b →
      detect_order_block df =
        some (if b.close < b.op then some (Direction.buy, b.low, b.high)
          else if b.close > b.op then some (Direction.sell, b.low, b.high)
          else none)) := by
  constructor
  · intro h
    simp [detect_order_block, h]
  · intro b hlen hget
    have hnot : ¬ df.length < 2 := by omega
    simp only [detect_order_block, if_neg hnot, hget]
    by_cases hc1 : b.close < b.op
    · simp [hc1]
    · by_cases hc2 : b.op < b.close
      · simp [hc1, hc2]
      · simp [hc1, hc2]

/-- Witness for the amended C6: the empty series fails; `obList` yields the
buy zone of its bearish second-to-last bar. -/
theorem detect_order_block_second_last_w :
    detect_order_block [] = none ∧
    detect_order_block obList =
      some (if obBar0.close < obBar0.op then some (Direction.buy, obBar0.low, obBar0.high)
        else if obBar0.close > obBar0.op then some (Direction.sell, obBar0.low, obBar0.high)
        else none) :=
  ⟨(detect_order_block_second_last []).1 (by decide),
   (detect_order_block_second_last obList).2 obBar0 (by decide) rfl⟩

/-- C7: for positive balance, risk fraction in (0,1] and positive stop
distance, the risk sizer never returns below the 0.01 minimum, in every
environment branch — including when the raw size underflows the minimum. -/
theorem lot_size_from_risk_min (m i : Bool) (balance risk_pct sl_pips : ℚ)
    (hb : 0 < balance) (hr0 : 0 < risk_pct) (hr1 : risk_pct ≤ 1) (hs : 0 < sl_pips) :
    1/100 ≤ lot_size_from_risk m i balance risk_pct sl_pips := by
  cases m
  · simp [lot_size_from_risk]
  · cases i
    · simp [lot_size_from_risk]
    · simp only [lot_size_from_risk, if_pos]
      exact round2_ge_min _ (le_max_left _ _)

/-- Witness for C7 at the spec's underflow point: balance 100, risk 0.01,
stop 500 pips. -/
theorem lot_size_from_risk_min_w :
    1/100 ≤ lot_size_from_risk true true 100 (1/100) 500 :=
  lot_size_from_risk_min true true 100 (1/100) 500 (by norm_num) (by norm_num)
    (by norm_num) (by norm_num)

/-- C8: balance 10000, risk fraction 0.01 and a 50-pip stop give risk amount
100 and size 100 / (50 × 10) = 0.2, unchanged by rounding to the 0.01
increment. -/
theorem lot_size_from_risk_example :
    lot_size_from_risk true true 10000 (1/100) 50 = 1/5 := by
  simp only [lot_size_from_risk, if_pos]
  norm_num [round2, max_def]

/-- C9: whenever all four swing windows of the structure-break detector are
nonempty and both the bull and the bear condition hold simultaneously, the
result is bull-break — the bull check comes first. -/
theorem detect_bos_bull_priority (df : List Bar) (rh ph rl pl : ℚ)
    (h1 : qmax? (pyslice (df.map Bar.high) (-3) (-1)) = some rh)
    (h2 : qmax? (pyslice (df.map Bar.high) (-6) (-4)) = some ph)
    (h3 : qmin? (pyslice (df.map Bar.low) (-3) (-1)) = some rl)
    (h4 : qmin? (pyslice (df.map Bar.low) (-6) (-4)) = some pl)
    (hgt : rh > ph) (hlt : rl < pl) :
    detect_bos df = some StructureEvent.bull_bos := by
  simp only [detect_bos, h1, h2, h3, h4, qgt]
  simp [hgt]

/-- Witness for C9 on an 8-bar series breaking both ways. -/
theorem detect_bos_bull_priority_w :
    detect_bos bosBothList = some StructureEvent.bull_bos :=
  detect_bos_bull_priority bosBothList 10 5 1 3 (by decide) (by decide) (by decide)
    (by decide) (by decide) (by decide)

/-- C10: when the last bar is a doji (close = open), both rejection-candle
conditions fail, so the liquidity-sweep detector returns the no-sweep result
whatever the wick extremes are. -/
theorem detect_liquidity_sweep_doji (df : List Bar) (b : Bar)
    (hlast : df.getLast? = some b) (hdoji : b.close = b.op) :
    detect_liquidity_sweep df = some none := by
  simp only [detect_liquidity_sweep, hlast]
  simp [hdoji]

/-- Witness for C10 on a 1-bar doji series. -/
theorem detect_liquidity_sweep_doji_w :
    detect_liquidity_sweep dojiList = some none :=
  detect_liquidity_sweep_doji dojiList ⟨1, 100, 0, 1⟩ rfl rfl
